import Mathlib

/-!
Verification of the Airy-function evaluator `airy` from
`src/include/itpp/base/bessel/airy.cpp` (a slightly modified Cephes routine).

The C routine is embedded shallowly over `ℝ`: C `double` arithmetic becomes
real arithmetic, the output pointers `*ai, *aip, *bi, *bip` become a `Mem`
record threaded through the computation, the `int` status becomes `ℤ`, and
the two unbounded `while` convergence loops become fuel-indexed recursions
returning `Option` (`none` when the fuel is exhausted before the ratio test
fails).  All literal constants and coefficient tables are transcribed
verbatim from the source.
-/

namespace Airy

noncomputable section

/-- The caller-supplied output locations `*ai, *aip, *bi, *bip` of the C
routine, modelled as a record of four reals. -/
structure Mem where
  ai : ℝ
  aip : ℝ
  bi : ℝ
  bip : ℝ

/-- Constant `c1` from `airy.cpp`. -/
def c1 : ℝ := 0.35502805388781723926

/-- Constant `c2` from `airy.cpp`. -/
def c2 : ℝ := 0.258819403792806798405

/-- Constant `sqrt3` from `airy.cpp`. -/
def sqrt3 : ℝ := 1.732050807568877293527

/-- Constant `sqpii` from `airy.cpp` (the value of `sqrt(1/pi)`). -/
def sqpii : ℝ := 5.64189583547756286948e-1

/-- Macro `MAXAIRY` from `airy.cpp`. -/
def MAXAIRY : ℝ := 25.77

/-- Macro `PI` from `airy.cpp` (the double literal, not the real number π). -/
def PI : ℝ := 3.14159265358979323846

/-- Macro `MAXNUM` from `airy.cpp` (largest double). -/
def MAXNUM : ℝ := 1.79769313486231570815e308

/-- Macro `MACHEP` from `airy.cpp` (machine epsilon, `2^-53`). -/
def MACHEP : ℝ := 1.11022302462515654042e-16

/-- Coefficient table `AN` from `airy.cpp`. -/
def AN : List ℝ :=
  [3.46538101525629032477e-1, 1.20075952739645805542e1,
   7.62796053615234516538e1, 1.68089224934630576269e2,
   1.59756391350164413639e2, 7.05360906840444183113e1,
   1.40264691163389668864e1, 9.99999999999999995305e-1]

/-- Coefficient table `AD` from `airy.cpp`. -/
def AD : List ℝ :=
  [5.67594532638770212846e-1, 1.47562562584847203173e1,
   8.45138970141474626562e1, 1.77318088145400459522e2,
   1.64234692871529701831e2, 7.14778400825575695274e1,
   1.40959135607834029598e1, 1.00000000000000000470e0]

/-- Coefficient table `APN` from `airy.cpp`. -/
def APN : List ℝ :=
  [6.13759184814035759225e-1, 1.47454670787755323881e1,
   8.20584123476060982430e1, 1.71184781360976385540e2,
   1.59317847137141783523e2, 6.99778599330103016170e1,
   1.39470856980481566958e1, 1.00000000000000000550e0]

/-- Coefficient table `APD` from `airy.cpp`. -/
def APD : List ℝ :=
  [3.34203677749736953049e-1, 1.11810297306158156705e1,
   7.11727352147859965283e1, 1.58778084372838313640e2,
   1.53206427475809220834e2, 6.86752304592780337944e1,
   1.38498634758259442477e1, 9.99999999999999994502e-1]

/-- Coefficient table `BN16` from `airy.cpp`. -/
def BN16 : List ℝ :=
  [-2.53240795869364152689e-1, 5.75285167332467384228e-1,
   -3.29907036873225371650e-1, 6.44404068948199951727e-2,
   -3.82519546641336734394e-3]

/-- Coefficient table `BD16` from `airy.cpp` (implicit leading 1.0). -/
def BD16 : List ℝ :=
  [-7.15685095054035237902e0, 1.06039580715664694291e1,
   -5.23246636471251500874e0, 9.57395864378383833152e-1,
   -5.50828147163549611107e-2]

/-- Coefficient table `BPPN` from `airy.cpp`. -/
def BPPN : List ℝ :=
  [4.65461162774651610328e-1, -1.08992173800493920734e0,
   6.38800117371827987759e-1, -1.26844349553102907034e-1,
   7.62487844342109852105e-3]

/-- Coefficient table `BPPD` from `airy.cpp` (implicit leading 1.0). -/
def BPPD : List ℝ :=
  [-8.70622787633159124240e0, 1.38993162704553213172e1,
   -7.14116144616431159572e0, 1.34008595960680518666e0,
   -7.84273211323341930448e-2]

/-- Coefficient table `AFN` from `airy.cpp`. -/
def AFN : List ℝ :=
  [-1.31696323418331795333e-1, -6.26456544431912369773e-1,
   -6.93158036036933542233e-1, -2.79779981545119124951e-1,
   -4.91900132609500318020e-2, -4.06265923594885404393e-3,
   -1.59276496239262096340e-4, -2.77649108155232920844e-6,
   -1.67787698489114633780e-8]

/-- Coefficient table `AFD` from `airy.cpp` (implicit leading 1.0). -/
def AFD : List ℝ :=
  [1.33560420706553243746e1, 3.26825032795224613948e1,
   2.67367040941499554804e1, 9.18707402907259625840e0,
   1.47529146771666414581e0, 1.15687173795188044134e-1,
   4.40291641615211203805e-3, 7.54720348287414296618e-5,
   4.51850092970580378464e-7]

/-- Coefficient table `AGN` from `airy.cpp`. -/
def AGN : List ℝ :=
  [1.97339932091685679179e-2, 3.91103029615688277255e-1,
   1.06579897599595591108e0, 9.39169229816650230044e-1,
   3.51465656105547619242e-1, 6.33888919628925490927e-2,
   5.85804113048388458567e-3, 2.82851600836737019778e-4,
   6.98793669997260967291e-6, 8.11789239554389293311e-8,
   3.41551784765923618484e-10]

/-- Coefficient table `AGD` from `airy.cpp` (implicit leading 1.0). -/
def AGD : List ℝ :=
  [9.30892908077441974853e0, 1.98352928718312140417e1,
   1.55646628932864612953e1, 5.47686069422975497931e0,
   9.54293611618961883998e-1, 8.64580826352392193095e-2,
   4.12656523824222607191e-3, 1.01259085116509135510e-4,
   1.17166733214413521882e-6, 4.91834570062930015649e-9]

/-- Coefficient table `APFN` from `airy.cpp`. -/
def APFN : List ℝ :=
  [1.85365624022535566142e-1, 8.86712188052584095637e-1,
   9.87391981747398547272e-1, 4.01241082318003734092e-1,
   7.10304926289631174579e-2, 5.90618657995661810071e-3,
   2.33051409401776799569e-4, 4.08718778289035454598e-6,
   2.48379932900442457853e-8]

/-- Coefficient table `APFD` from `airy.cpp` (implicit leading 1.0). -/
def APFD : List ℝ :=
  [1.47345854687502542552e1, 3.75423933435489594466e1,
   3.14657751203046424330e1, 1.09969125207298778536e1,
   1.78885054766999417817e0, 1.41733275753662636873e-1,
   5.44066067017226003627e-3, 9.39421290654511171663e-5,
   5.65978713036027009243e-7]

/-- Coefficient table `APGN` from `airy.cpp`. -/
def APGN : List ℝ :=
  [-3.55615429033082288335e-2, -6.37311518129435504426e-1,
   -1.70856738884312371053e0, -1.50221872117316635393e0,
   -5.63606665822102676611e-1, -1.02101031120216891789e-1,
   -9.48396695961445269093e-3, -4.60325307486780994357e-4,
   -1.14300836484517375919e-5, -1.33415518685547420648e-7,
   -5.63803833958893494476e-10]

/-- Coefficient table `APGD` from `airy.cpp` (implicit leading 1.0). -/
def APGD : List ℝ :=
  [9.85865801696130355144e0, 2.16401867356585941885e1,
   1.73130776389749389525e1, 6.17872175280828766327e0,
   1.08848694396321495475e0, 9.95005543440888479402e-2,
   4.78468199683886610842e-3, 1.18159633322838625562e-4,
   1.37480673554219441465e-6, 5.79912514929147598821e-9]

/-- Modelled from the spec: `evalPoly` (the Cephes helper `polevl`, declared
in `bessel_internal.h`, which is not among the sources): Horner evaluation of
a polynomial whose coefficients are listed from highest degree to lowest. -/
def polevl (x : ℝ) (coef : List ℝ) : ℝ :=
  coef.foldl (fun ans c => ans * x + c) 0

/-- Modelled from the spec: `evalPoly1` (the Cephes helper `p1evl`, declared
in `bessel_internal.h`, which is not among the sources): Horner evaluation
of a polynomial with an implicit leading coefficient 1.0; the list holds the
remaining coefficients from highest degree to lowest. -/
def p1evl (x : ℝ) (coef : List ℝ) : ℝ :=
  coef.foldl (fun ans c => ans * x + c) 1

/-- The local variables of the two convergence loops of `airy`
(`f, g, t, uf, ug, k`). -/
structure SeriesState where
  f : ℝ
  g : ℝ
  t : ℝ
  uf : ℝ
  ug : ℝ
  k : ℝ

/-- One iteration of the first `while` loop of `airy` (the Ai/Bi value
series, lines 334-347 of `airy.cpp`). -/
def step1 (z : ℝ) (s : SeriesState) : SeriesState :=
  let uf1 := s.uf * z
  let k1 := s.k + 1
  let uf2 := uf1 / k1
  let ug1 := s.ug * z
  let k2 := k1 + 1
  let ug2 := ug1 / k2
  let uf3 := uf2 / k2
  let f1 := s.f + uf3
  let k3 := k2 + 1
  let ug3 := ug2 / k3
  let g1 := s.g + ug3
  ⟨f1, g1, |uf3 / f1|, uf3, ug3, k3⟩

/-- One iteration of the second `while` loop of `airy` (the Ai'/Bi'
derivative series, lines 364-377 of `airy.cpp`). -/
def step2 (z : ℝ) (s : SeriesState) : SeriesState :=
  let uf1 := s.uf * z
  let ug1 := s.ug / s.k
  let k1 := s.k + 1
  let ug2 := ug1 * z
  let uf2 := uf1 / k1
  let f1 := s.f + uf2
  let k2 := k1 + 1
  let ug3 := ug2 / k2
  let uf3 := uf2 / k2
  let g1 := s.g + ug3
  let k3 := k2 + 1
  ⟨f1, g1, |ug3 / g1|, uf3, ug3, k3⟩

/-- The first `while (t > MACHEP)` loop, with explicit fuel: `none` models
the loop still running when the fuel is exhausted. -/
def loop1 (z : ℝ) (fuel : ℕ) (s : SeriesState) : Option SeriesState :=
  if s.t ≤ MACHEP then some s
  else if h : fuel = 0 then none
  else loop1 z (fuel - 1) (step1 z s)
termination_by fuel
decreasing_by omega

/-- The second `while (t > MACHEP)` loop, with explicit fuel. -/
def loop2 (z : ℝ) (fuel : ℕ) (s : SeriesState) : Option SeriesState :=
  if s.t ≤ MACHEP then some s
  else if h : fuel = 0 then none
  else loop2 z (fuel - 1) (step2 z s)
termination_by fuel
decreasing_by omega

/-- Initial loop state for the first series (lines 327-333 of `airy.cpp`):
`f = 1; g = x; t = 1; uf = 1; ug = x; k = 1`. -/
def init1 (x : ℝ) : SeriesState := ⟨1, x, 1, 1, x, 1⟩

/-- Initial loop state for the second series (lines 356-362 of `airy.cpp`):
`k = 4; uf = x*x/2; ug = z/3; f = uf; g = 1 + ug; uf /= 3; t = 1`
(with `z = x*x*x`). -/
def init2 (x : ℝ) : SeriesState :=
  ⟨x * x / 2, 1 + x * x * x / 3, 1, x * x / 2 / 3, x * x * x / 3, 4⟩

/-- The shared near-zero power-series tail of `airy` (lines 327-386):
runs both convergence loops on `z = x³` and writes each of the four outputs
only when its domain-flag bit is unset (`domflg & 1` guards `ai`,
`& 2` guards `bi`, `& 4` guards `aip`, `& 8` guards `bip`).  Returns status
0; `none` models a loop that has not converged within the fuel. -/
def airy_series (x : ℝ) (domflg : ℕ) (m : Mem) (fuel : ℕ) : Option (Mem × ℤ) :=
  let z := x * x * x
  match loop1 z fuel (init1 x) with
  | none => none
  | some s1 =>
      let uf := c1 * s1.f
      let ug := c2 * s1.g
      let m1 := if domflg &&& 1 = 0 then { m with ai := uf - ug } else m
      let m2 := if domflg &&& 2 = 0 then { m1 with bi := sqrt3 * (uf + ug) } else m1
      match loop2 z fuel (init2 x) with
      | none => none
      | some s2 =>
          let uf2 := c1 * s2.f
          let ug2 := c2 * s2.g
          let m3 := if domflg &&& 4 = 0 then { m2 with aip := uf2 - ug2 } else m2
          let m4 := if domflg &&& 8 = 0 then { m3 with bip := sqrt3 * (uf2 + ug2) } else m3
          some (m4, 0)

/-- The `x < -2.09` negative asymptotic branch of `airy` (lines 280-300).
Note the reassignment `t = sqrt(t)` (so `t2 = (-x)^(1/4)`) before `k` and
the derivative scale `sqpii * t` are formed. -/
def negBranch (x : ℝ) : Mem × ℤ :=
  let t := Real.sqrt (-x)
  let zeta := -2 * x * t / 3
  let t2 := Real.sqrt t
  let k := sqpii / t2
  let z := 1 / zeta
  let zz := z * z
  let uf := 1 + zz * polevl zz AFN / p1evl zz AFD
  let ug := z * polevl zz AGN / p1evl zz AGD
  let theta := zeta + 0.25 * PI
  let f := Real.sin theta
  let g := Real.cos theta
  let uf2 := 1 + zz * polevl zz APFN / p1evl zz APFD
  let ug2 := z * polevl zz APGN / p1evl zz APGD
  let k2 := sqpii * t2
  (⟨k * (f * uf - g * ug), -k2 * (g * uf2 + f * ug2),
    k * (g * uf + f * ug), k2 * (f * uf2 - g * ug2)⟩, 0)

/-- The `Ai`/`Ai'` values computed by the `x >= 2.09` positive asymptotic
branch (lines 303-315).  Again `t` is reassigned to `sqrt(t) = x^(1/4)`
before the scale factors `k = 2*t*g` and `k = -0.5*sqpii*t/g` are formed. -/
def posAiAip (x : ℝ) : ℝ × ℝ :=
  let t := Real.sqrt x
  let zeta := 2 * x * t / 3
  let g := Real.exp zeta
  let t2 := Real.sqrt t
  let k := 2 * t2 * g
  let z := 1 / zeta
  let f := polevl z AN / polevl z AD
  let k2 := -0.5 * sqpii * t2 / g
  let f2 := polevl z APN / polevl z APD
  (sqpii * f / k, f2 * k2)

/-- The full result of the positive asymptotic branch in the `x > 8.3203353`
(`zeta > 16`) subcase (lines 317-324), which also produces `Bi`/`Bi'` from
the `BN16/BD16` and `BPPN/BPPD` tables and returns immediately. -/
def posBig (x : ℝ) : Mem × ℤ :=
  let t := Real.sqrt x
  let zeta := 2 * x * t / 3
  let g := Real.exp zeta
  let t2 := Real.sqrt t
  let z := 1 / zeta
  let f3 := z * polevl z BN16 / p1evl z BD16
  let k3 := sqpii * g
  let f4 := z * polevl z BPPN / p1evl z BPPD
  (⟨(posAiAip x).1, (posAiAip x).2, k3 * (1 + f3) / t2, k3 * t2 * (1 + f4)⟩, 0)

/-- Shallow embedding of `int airy(double x, double *ai, double *aip,
double *bi, double *bip)` (lines 266-386 of `airy.cpp`).  `m` holds the
initial contents of the four output locations; the result is the final
contents together with the returned status, or `none` when a convergence
loop exceeds the fuel. -/
def airy (x : ℝ) (m : Mem) (fuel : ℕ) : Option (Mem × ℤ) :=
  if MAXAIRY < x then some (⟨0, 0, MAXNUM, MAXNUM⟩, -1)
  else if x < -2.09 then some (negBranch x)
  else if 2.09 ≤ x then
    if 8.3203353 < x then some (posBig x)
    else airy_series x 5 { m with ai := (posAiAip x).1, aip := (posAiAip x).2 } fuel
  else airy_series x 0 m fuel

/-! Spec-side formulas.  The following definitions restate, in the spec's own
notation (ζ = (2/3)·x·√x on the positive side, ζ = −(2/3)·x·√(−x) on the
negative side, zz = (1/ζ)², θ = ζ + π/4), the values the claims attribute to
the asymptotic branches.  They are compared against the embedded code. -/

/-- ζ of the positive asymptotic branch, in the spec's notation. -/
def asymZeta (x : ℝ) : ℝ := 2 / 3 * x * Real.sqrt x

/-- The `Ai` value of the positive asymptotic branch:
`√(1/π)·evalPoly(z,AN)/evalPoly(z,AD)/k` with the corrected scale
`k = 2·x^(1/4)·exp ζ`. -/
def asymAi (x : ℝ) : ℝ :=
  sqpii * (polevl (1 / asymZeta x) AN / polevl (1 / asymZeta x) AD) /
    (2 * Real.sqrt (Real.sqrt x) * Real.exp (asymZeta x))

/-- The `Ai'` value of the positive asymptotic branch:
`k″·evalPoly(z,APN)/evalPoly(z,APD)` with the corrected scale
`k″ = −0.5·√(1/π)·x^(1/4)/exp ζ`. -/
def asymAip (x : ℝ) : ℝ :=
  -0.5 * sqpii * Real.sqrt (Real.sqrt x) / Real.exp (asymZeta x) *
    (polevl (1 / asymZeta x) APN / polevl (1 / asymZeta x) APD)

/-- The `Bi` value of the `x > 8.3203353` subcase: the `BN16/BD16` rational
approximation scaled by `k = √(1/π)·exp ζ` (and divided by `x^(1/4)`). -/
def asymBi (x : ℝ) : ℝ :=
  sqpii * Real.exp (asymZeta x) *
      (1 + 1 / asymZeta x * polevl (1 / asymZeta x) BN16 / p1evl (1 / asymZeta x) BD16) /
    Real.sqrt (Real.sqrt x)

/-- The `Bi'` value of the `x > 8.3203353` subcase: the `BPPN/BPPD` rational
approximation scaled by `k = √(1/π)·exp ζ` (and multiplied by `x^(1/4)`). -/
def asymBip (x : ℝ) : ℝ :=
  sqpii * Real.exp (asymZeta x) * Real.sqrt (Real.sqrt x) *
    (1 + 1 / asymZeta x * polevl (1 / asymZeta x) BPPN / p1evl (1 / asymZeta x) BPPD)

/-- The claimed (uncorrected) `Ai` of the positive branch, with the scale
`k = 2·t·g` taken at `t = √x` as the claim states. -/
def claimPosAi (x : ℝ) : ℝ :=
  sqpii * (polevl (1 / asymZeta x) AN / polevl (1 / asymZeta x) AD) /
    (2 * Real.sqrt x * Real.exp (asymZeta x))

/-- ζ of the negative asymptotic branch, in the spec's notation. -/
def negZeta (x : ℝ) : ℝ := -(2 / 3) * x * Real.sqrt (-x)

/-- θ = ζ + π/4 of the negative branch (π being the code's `PI` literal). -/
def negTheta (x : ℝ) : ℝ := negZeta x + PI / 4

/-- `uf = 1 + zz·evalPoly(zz,APFN)/evalPoly1(zz,APFD)` of the negative
branch derivative computation, with `zz = (1/ζ)²`. -/
def negUf (x : ℝ) : ℝ :=
  1 + (1 / negZeta x) ^ 2 * polevl ((1 / negZeta x) ^ 2) APFN /
    p1evl ((1 / negZeta x) ^ 2) APFD

/-- `ug = (1/ζ)·evalPoly(zz,APGN)/evalPoly1(zz,APGD)` of the negative
branch derivative computation. -/
def negUg (x : ℝ) : ℝ :=
  1 / negZeta x * polevl ((1 / negZeta x) ^ 2) APGN /
    p1evl ((1 / negZeta x) ^ 2) APGD

/-- The corrected derivative scale of the negative branch:
`k′ = √(1/π)·√t = √(1/π)·(−x)^(1/4)` (the code reassigns `t = sqrt(t)`). -/
def negKp (x : ℝ) : ℝ := sqpii * Real.sqrt (Real.sqrt (-x))

/-- The derivative scale as the claim states it: `k′ = √(1/π)·√(−x)`. -/
def negKpClaim (x : ℝ) : ℝ := sqpii * Real.sqrt (-x)

/-- `Ai' = −k′·(g·uf + f·ug)` with the corrected `k′`. -/
def negAipAmended (x : ℝ) : ℝ :=
  -negKp x * (Real.cos (negTheta x) * negUf x + Real.sin (negTheta x) * negUg x)

/-- `Bi' = k′·(f·uf − g·ug)` with the corrected `k′`. -/
def negBipAmended (x : ℝ) : ℝ :=
  negKp x * (Real.sin (negTheta x) * negUf x - Real.cos (negTheta x) * negUg x)

/-- `Ai'` as the claim states it, using `k′ = √(1/π)·√(−x)`. -/
def negAipClaim (x : ℝ) : ℝ :=
  -negKpClaim x * (Real.cos (negTheta x) * negUf x + Real.sin (negTheta x) * negUg x)


/-- The exact state in which the first convergence loop halts at x = 3
(z = 27), after 15 iterations. -/
def s1_at_three : SeriesState :=
  ⟨114283433978955581428453213501 / 10004584163125302919168000000,
   1475502884117289450186863259813 / 94318391220564084654080000000,
   282429536481 / 114283433978955581428453213501,
   282429536481 / 10004584163125302919168000000,
   847288609443 / 94318391220564084654080000000, 46⟩

/-- The exact state in which the second convergence loop halts at x = 3
(z = 27), after 14 iterations. -/
def s2_at_three : SeriesState :=
  ⟨7451971835720316778723597911 / 400183366525012116766720000,
   26234237475733202441654762143 / 1025199904571348746240000000,
   282429536481 / 52468474951466404883309524286,
   94143178827 / 10004584163125302919168000000,
   282429536481 / 2050399809142697492480000000, 46⟩

/-- The full result of `airy` at x = 3 (fall-through path, both loops
converged): Ai/Ai' from the positive asymptotic branch, Bi/Bi' from the
series states. -/
def result_at_three : Mem × ℤ :=
  (⟨(posAiAip 3).1, (posAiAip 3).2,
    sqrt3 * (c1 * s1_at_three.f + c2 * s1_at_three.g),
    sqrt3 * (c1 * s2_at_three.f + c2 * s2_at_three.g)⟩, 0)

/-! Helper lemmas: branch unfoldings of `airy`. -/


lemma airy_overflow {x : ℝ} (h : MAXAIRY < x) (m : Mem) (fuel : ℕ) :
    airy x m fuel = some (⟨0, 0, MAXNUM, MAXNUM⟩, -1) := by
  simp [airy, h]

lemma airy_neg {x : ℝ} (h : x < -2.09) (m : Mem) (fuel : ℕ) :
    airy x m fuel = some (negBranch x) := by
  have h1 : ¬ MAXAIRY < x :=
    not_lt.mpr (le_trans h.le (by norm_num [MAXAIRY]))
  simp [airy, h, h1]

lemma airy_pos_direct {x : ℝ} (h1 : 2.09 ≤ x) (h2 : x ≤ MAXAIRY)
    (h3 : 8.3203353 < x) (m : Mem) (fuel : ℕ) :
    airy x m fuel = some (posBig x) := by
  have ha : ¬ MAXAIRY < x := not_lt.mpr h2
  have hb : ¬ x < -2.09 := not_lt.mpr (le_trans (by norm_num) h1)
  simp [airy, ha, hb, h1, h3]

lemma airy_pos_fall {x : ℝ} (h1 : 2.09 ≤ x) (h3 : x ≤ 8.3203353)
    (m : Mem) (fuel : ℕ) :
    airy x m fuel =
      airy_series x 5 { m with ai := (posAiAip x).1, aip := (posAiAip x).2 } fuel := by
  have ha : ¬ MAXAIRY < x :=
    not_lt.mpr (le_trans h3 (by norm_num [MAXAIRY]))
  have hb : ¬ x < -2.09 := not_lt.mpr (le_trans (by norm_num) h1)
  have hc : ¬ 8.3203353 < x := not_lt.mpr h3
  simp [airy, ha, hb, h1, hc]

lemma airy_small {x : ℝ} (ha : ¬ x < -2.09) (hb : ¬ 2.09 ≤ x)
    (m : Mem) (fuel : ℕ) :
    airy x m fuel = airy_series x 0 m fuel := by
  have h1 : ¬ MAXAIRY < x :=
    not_lt.mpr (le_trans (le_of_not_le hb) (by norm_num [MAXAIRY]))
  simp [airy, h1, ha, hb]

/-! Helper lemmas: the near-zero series tail. -/

lemma airy_series_status {x : ℝ} {d : ℕ} {m : Mem} {fuel : ℕ} {r : Mem × ℤ}
    (h : airy_series x d m fuel = some r) : r.2 = 0 := by
  simp only [airy_series] at h
  cases h1 : loop1 (x * x * x) fuel (init1 x) with
  | none => rw [h1] at h; exact absurd h (by simp)
  | some s1 =>
      rw [h1] at h
      cases h2 : loop2 (x * x * x) fuel (init2 x) with
      | none => rw [h2] at h; exact absurd h (by simp)
      | some s2 =>
          rw [h2] at h
          simp only [Option.some.injEq] at h
          rw [← h]

lemma airy_series_five_frame {x : ℝ} {m : Mem} {fuel : ℕ} {r : Mem × ℤ}
    (h : airy_series x 5 m fuel = some r) :
    r.1.ai = m.ai ∧ r.1.aip = m.aip := by
  simp only [airy_series] at h
  cases h1 : loop1 (x * x * x) fuel (init1 x) with
  | none => rw [h1] at h; exact absurd h (by simp)
  | some s1 =>
      rw [h1] at h
      cases h2 : loop2 (x * x * x) fuel (init2 x) with
      | none => rw [h2] at h; exact absurd h (by simp)
      | some s2 =>
          rw [h2] at h
          simp only [if_neg (by decide : ¬ ((5 : ℕ) &&& 1 = 0)),
            if_pos (by decide : (5 : ℕ) &&& 2 = 0),
            if_neg (by decide : ¬ ((5 : ℕ) &&& 4 = 0)),
            if_pos (by decide : (5 : ℕ) &&& 8 = 0),
            Option.some.injEq] at h
          rw [← h]
          exact ⟨rfl, rfl⟩

lemma airy_series_five_bi {x : ℝ} {m : Mem} {fuel : ℕ} {r : Mem × ℤ}
    {s1 s2 : SeriesState}
    (h : airy_series x 5 m fuel = some r)
    (h1 : loop1 (x * x * x) fuel (init1 x) = some s1)
    (h2 : loop2 (x * x * x) fuel (init2 x) = some s2) :
    r.1.bi = sqrt3 * (c1 * s1.f + c2 * s1.g) ∧
      r.1.bip = sqrt3 * (c1 * s2.f + c2 * s2.g) := by
  simp only [airy_series, h1, h2,
    if_neg (by decide : ¬ ((5 : ℕ) &&& 1 = 0)),
    if_pos (by decide : (5 : ℕ) &&& 2 = 0),
    if_neg (by decide : ¬ ((5 : ℕ) &&& 4 = 0)),
    if_pos (by decide : (5 : ℕ) &&& 8 = 0),
    Option.some.injEq] at h
  rw [← h]
  exact ⟨rfl, rfl⟩

lemma airy_series_zero_indep (x : ℝ) (m m2 : Mem) (fuel : ℕ) :
    airy_series x 0 m fuel = airy_series x 0 m2 fuel := by
  simp only [airy_series]
  cases loop1 (x * x * x) fuel (init1 x) with
  | none => rfl
  | some s1 =>
      cases loop2 (x * x * x) fuel (init2 x) with
      | none => rfl
      | some s2 => simp

lemma airy_series_five_indep (x : ℝ) (m m2 : Mem) (fuel : ℕ)
    (hai : m.ai = m2.ai) (haip : m.aip = m2.aip) :
    airy_series x 5 m fuel = airy_series x 5 m2 fuel := by
  simp only [airy_series]
  cases loop1 (x * x * x) fuel (init1 x) with
  | none => rfl
  | some s1 =>
      cases loop2 (x * x * x) fuel (init2 x) with
      | none =>
          simp [if_neg (by decide : ¬ ((5 : ℕ) &&& 1 = 0)),
            if_pos (by decide : (5 : ℕ) &&& 2 = 0)]
      | some s2 =>
          simp [if_neg (by decide : ¬ ((5 : ℕ) &&& 1 = 0)),
            if_pos (by decide : (5 : ℕ) &&& 2 = 0),
            if_neg (by decide : ¬ ((5 : ℕ) &&& 4 = 0)),
            if_pos (by decide : (5 : ℕ) &&& 8 = 0), hai, haip]

/-- The result of `airy` does not depend on the initial contents of the four
output locations: every location is written before any return. -/
lemma airy_mem_indep (x : ℝ) (m m2 : Mem) (fuel : ℕ) :
    airy x m fuel = airy x m2 fuel := by
  unfold airy
  split_ifs
  · rfl
  · rfl
  · rfl
  · exact airy_series_five_indep _ _ _ _ rfl rfl
  · exact airy_series_zero_indep _ _ _ _

/-! Helper lemmas: the positive branch values in spec notation. -/

lemma posAiAip_eq (x : ℝ) : posAiAip x = (asymAi x, asymAip x) := by
  have hz : 2 * x * Real.sqrt x / 3 = asymZeta x := by rw [asymZeta]; ring
  simp only [posAiAip, asymAi, asymAip, hz, Prod.mk.injEq, true_and]
  ring

lemma posBig_eq (x : ℝ) :
    posBig x = (⟨asymAi x, asymAip x, asymBi x, asymBip x⟩, 0) := by
  have hz : 2 * x * Real.sqrt x / 3 = asymZeta x := by rw [asymZeta]; ring
  simp only [posBig, posAiAip_eq, asymBi, asymBip, hz, Prod.mk.injEq,
    Mem.mk.injEq, and_true, true_and]

/-! Helper lemmas: loop behaviour. -/

lemma loop1_exit {z : ℝ} {s : SeriesState} (h : s.t ≤ MACHEP) (fuel : ℕ) :
    loop1 z fuel s = some s := by
  rw [loop1]
  simp [h]

lemma loop2_exit {z : ℝ} {s : SeriesState} (h : s.t ≤ MACHEP) (fuel : ℕ) :
    loop2 z fuel s = some s := by
  rw [loop2]
  simp [h]

lemma step1_zero : step1 0 (init1 0) = ⟨1, 0, 0, 0, 0, 4⟩ := by
  simp [step1, init1]
  norm_num

lemma step2_zero : step2 0 (init2 0) = ⟨0, 1, 0, 0, 0, 7⟩ := by
  simp [step2, init2]
  norm_num

lemma loop1_at_zero (fuel : ℕ) :
    loop1 (0 * 0 * 0 : ℝ) (fuel + 1) (init1 0) = some ⟨1, 0, 0, 0, 0, 4⟩ := by
  rw [loop1]
  rw [if_neg (by norm_num [init1, MACHEP])]
  rw [dif_neg (by omega : ¬ fuel + 1 = 0)]
  have hz : (0 * 0 * 0 : ℝ) = 0 := by norm_num
  rw [hz, Nat.add_sub_cancel, step1_zero]
  exact loop1_exit (by norm_num [MACHEP]) fuel

lemma loop2_at_zero (fuel : ℕ) :
    loop2 (0 * 0 * 0 : ℝ) (fuel + 1) (init2 0) = some ⟨0, 1, 0, 0, 0, 7⟩ := by
  rw [loop2]
  rw [if_neg (by norm_num [init2, MACHEP])]
  rw [dif_neg (by omega : ¬ fuel + 1 = 0)]
  have hz : (0 * 0 * 0 : ℝ) = 0 := by norm_num
  rw [hz, Nat.add_sub_cancel, step2_zero]
  exact loop2_exit (by norm_num [MACHEP]) fuel

lemma loop1_at_three_aux :
    loop1 (27 : ℝ) 20 ⟨1, 3, 1, 1, 3, 1⟩ =
      some ⟨114283433978955581428453213501 / 10004584163125302919168000000, 1475502884117289450186863259813 / 94318391220564084654080000000, 282429536481 / 114283433978955581428453213501, 282429536481 / 10004584163125302919168000000, 847288609443 / 94318391220564084654080000000, 46⟩ := by
  have e1 : step1 (27 : ℝ) (⟨1, 3, 1, 1, 3, 1⟩ : SeriesState) =
      ⟨11 / 2, 39 / 4, 9 / 11, 9 / 2, 27 / 4, 4⟩ := by
    norm_num [step1]
  have e2 : step1 (27 : ℝ) (⟨11 / 2, 39 / 4, 9 / 11, 9 / 2, 27 / 4, 4⟩ : SeriesState) =
      ⟨191 / 20, 789 / 56, 81 / 191, 81 / 20, 243 / 56, 7⟩ := by
    norm_num [step1]
  have e3 : step1 (27 : ℝ) (⟨191 / 20, 789 / 56, 81 / 191, 81 / 20, 243 / 56, 7⟩ : SeriesState) =
      ⟨1771 / 160, 8619 / 560, 243 / 1771, 243 / 160, 729 / 560, 10⟩ := by
    norm_num [step1]
  have e4 : step1 (27 : ℝ) (⟨1771 / 160, 8619 / 560, 243 / 1771, 243 / 160, 729 / 560, 10⟩ : SeriesState) =
      ⟨80111 / 7040, 454749 / 29120, 2187 / 80111, 2187 / 7040, 6561 / 29120, 13⟩ := by
    norm_num [step1]
  have e5 : step1 (27 : ℝ) (⟨80111 / 7040, 454749 / 29120, 2187 / 80111, 2187 / 7040, 6561 / 29120, 13⟩ : SeriesState) =
      ⟨5627453 / 492800, 5205567 / 332800, 19683 / 5627453, 19683 / 492800, 59049 / 2329600, 16⟩ := by
    norm_num [step1]
  have e6 : step1 (27 : ℝ) (⟨5627453 / 492800, 5205567 / 332800, 19683 / 5627453, 19683 / 492800, 59049 / 2329600, 16⟩ : SeriesState) =
      ⟨191392451 / 16755200, 1384857969 / 88524800, 59049 / 191392451, 59049 / 16755200, 177147 / 88524800, 19⟩ := by
    norm_num [step1]
  have e7 : step1 (27 : ℝ) (⟨191392451 / 16755200, 1384857969 / 88524800, 59049 / 191392451, 59049 / 16755200, 177147 / 88524800, 19⟩ : SeriesState) =
      ⟨26795474581 / 2345728000, 213269721549 / 13632819200, 531441 / 26795474581, 531441 / 2345728000, 1594323 / 13632819200, 22⟩ := by
    norm_num [step1]
  have e8 : step1 (27 : ℝ) (⟨26795474581 / 2345728000, 213269721549 / 13632819200, 531441 / 26795474581, 531441 / 2345728000, 1594323 / 13632819200, 22⟩ : SeriesState) =
      ⟨4930372105873 / 431613952000, 3877632605337 / 247869440000, 4782969 / 4930372105873, 4782969 / 431613952000, 14348907 / 2726563840000, 25⟩ := by
    norm_num [step1]
  have e9 : step1 (27 : ℝ) (⟨4930372105873 / 431613952000, 3877632605337 / 247869440000, 4782969 / 4930372105873, 4782969 / 431613952000, 14348907 / 2726563840000, 25⟩ : SeriesState) =
      ⟨7540569384451 / 660115456000, 91870065907131 / 5872599040000, 4782969 / 128189679535667, 4782969 / 11221962752000, 14348907 / 76343787520000, 28⟩ := by
    norm_num [step1]
  have e10 : step1 (27 : ℝ) (⟨7540569384451 / 660115456000, 91870065907131 / 5872599040000, 4782969 / 128189679535667, 4782969 / 11221962752000, 14348907 / 76343787520000, 28⟩ : SeriesState) =
      ⟨37137869239151 / 3251118080000, 33657851430443463 / 2151506739200000, 43046721 / 37175007108390151, 43046721 / 3254369198080000, 129140163 / 23666574131200000, 31⟩ := by
    norm_num [step1]
  have e11 : step1 (27 : ℝ) (⟨37137869239151 / 3251118080000, 33657851430443463 / 2151506739200000, 43046721 / 37175007108390151, 43046721 / 3254369198080000, 129140163 / 23666574131200000, 31⟩ : SeriesState) =
      ⟨13085602502540753641 / 1145537957724160000, 138468400786006668249 / 8851298725068800000, 387420489 / 13085602502540753641, 387420489 / 1145537957724160000, 1162261467 / 8851298725068800000, 34⟩ := by
    norm_num [step1]
  have e12 : step1 (27 : ℝ) (⟨13085602502540753641 / 1145537957724160000, 138468400786006668249 / 8851298725068800000, 387420489 / 13085602502540753641, 387420489 / 1145537957724160000, 1162261467 / 8851298725068800000, 34⟩ : SeriesState) =
      ⟨12811079373124949449 / 1121505692876800000, 2927617616618924812179 / 187141744472883200000, 1162261467 / 1831984350356867771207, 1162261467 / 160375314081382400000, 3486784401 / 1309992211310182400000, 37⟩ := by
    norm_num [step1]
  have e13 : step1 (27 : ℝ) (⟨12811079373124949449 / 1121505692876800000, 2927617616618924812179 / 187141744472883200000, 1162261467 / 1831984350356867771207, 1162261467 / 160375314081382400000, 3486784401 / 1309992211310182400000, 37⟩ : SeriesState) =
      ⟨39347837785926223449107 / 3444582832878387200000, 10656528124492917697391169 / 681195949881294848000000, 10460353203 / 905000269076303139329461, 10460353203 / 79225405156202905600000, 31381059609 / 681195949881294848000000, 40⟩ := by
    norm_num [step1]
  have e14 : step1 (27 : ℝ) (⟨39347837785926223449107 / 3444582832878387200000, 10656528124492917697391169 / 681195949881294848000000, 10460353203 / 905000269076303139329461, 10460353203 / 79225405156202905600000, 31381059609 / 681195949881294848000000, 40⟩ : SeriesState) =
      ⟨1628433086049523812283039 / 142556058180753817600000, 493479225457287441250693863 / 31544612448349192192000000, 94143178827 / 519470154449798096118289441, 94143178827 / 45475382559660467814400000, 282429536481 / 410079961828539498496000000, 43⟩ := by
    norm_num [step1]
  have e15 : step1 (27 : ℝ) (⟨1628433086049523812283039 / 142556058180753817600000, 493479225457287441250693863 / 31544612448349192192000000, 94143178827 / 519470154449798096118289441, 94143178827 / 45475382559660467814400000, 282429536481 / 410079961828539498496000000, 43⟩ : SeriesState) =
      ⟨114283433978955581428453213501 / 10004584163125302919168000000, 1475502884117289450186863259813 / 94318391220564084654080000000, 282429536481 / 114283433978955581428453213501, 282429536481 / 10004584163125302919168000000, 847288609443 / 94318391220564084654080000000, 46⟩ := by
    norm_num [step1]
  rw [loop1]
  norm_num [MACHEP]
  rw [e1]
  rw [loop1]
  norm_num [MACHEP]
  rw [e2]
  rw [loop1]
  norm_num [MACHEP]
  rw [e3]
  rw [loop1]
  norm_num [MACHEP]
  rw [e4]
  rw [loop1]
  norm_num [MACHEP]
  rw [e5]
  rw [loop1]
  norm_num [MACHEP]
  rw [e6]
  rw [loop1]
  norm_num [MACHEP]
  rw [e7]
  rw [loop1]
  norm_num [MACHEP]
  rw [e8]
  rw [loop1]
  norm_num [MACHEP]
  rw [e9]
  rw [loop1]
  norm_num [MACHEP]
  rw [e10]
  rw [loop1]
  norm_num [MACHEP]
  rw [e11]
  rw [loop1]
  norm_num [MACHEP]
  rw [e12]
  rw [loop1]
  norm_num [MACHEP]
  rw [e13]
  rw [loop1]
  norm_num [MACHEP]
  rw [e14]
  rw [loop1]
  norm_num [MACHEP]
  rw [e15]
  exact loop1_exit (by norm_num [MACHEP]) 5

lemma loop2_at_three_aux :
    loop2 (27 : ℝ) 20 ⟨9 / 2, 10, 1, 3 / 2, 9, 4⟩ =
      some ⟨7451971835720316778723597911 / 400183366525012116766720000, 26234237475733202441654762143 / 1025199904571348746240000000, 282429536481 / 52468474951466404883309524286, 94143178827 / 10004584163125302919168000000, 282429536481 / 2050399809142697492480000000, 46⟩ := by
  have e1 : step2 (27 : ℝ) (⟨9 / 2, 10, 1, 3 / 2, 9, 4⟩ : SeriesState) =
      ⟨63 / 5, 161 / 8, 81 / 161, 27 / 20, 81 / 8, 7⟩ := by
    norm_num [step2]
  have e2 : step2 (27 : ℝ) (⟨63 / 5, 161 / 8, 81 / 161, 27 / 20, 81 / 8, 7⟩ : SeriesState) =
      ⟨549 / 32, 685 / 28, 243 / 1370, 81 / 160, 243 / 56, 10⟩ := by
    norm_num [step2]
  have e3 : step2 (27 : ℝ) (⟨549 / 32, 685 / 28, 243 / 1370, 81 / 160, 243 / 56, 10⟩ : SeriesState) =
      ⟨16191 / 880, 8141 / 320, 2187 / 56987, 729 / 7040, 2187 / 2240, 13⟩ := by
    norm_num [step2]
  have e4 : step2 (27 : ℝ) (⟨16191 / 880, 8141 / 320, 2187 / 56987, 729 / 7040, 2187 / 2240, 13⟩ : SeriesState) =
      ⟨366615 / 19712, 1861919 / 72800, 19683 / 3723838, 6561 / 492800, 19683 / 145600, 16⟩ := by
    norm_num [step2]
  have e5 : step2 (27 : ℝ) (⟨366615 / 19712, 1861919 / 72800, 19683 / 3723838, 6561 / 492800, 19683 / 145600, 16⟩ : SeriesState) =
      ⟨77994261 / 4188800, 3406339 / 133120, 59049 / 119221865, 19683 / 16755200, 59049 / 4659200, 19⟩ := by
    norm_num [step2]
  have e6 : step2 (27 : ℝ) (⟨77994261 / 4188800, 3406339 / 133120, 59049 / 119221865, 19683 / 16755200, 59049 / 4659200, 19⟩ : SeriesState) =
      ⟨891438903 / 47872000, 7928519743 / 309836800, 531441 / 15857039486, 177147 / 2345728000, 531441 / 619673600, 22⟩ := by
    norm_num [step2]
  have e7 : step2 (27 : ℝ) (⟨891438903 / 47872000, 7928519743 / 309836800, 531441 / 15857039486, 177147 / 2345728000, 531441 / 619673600, 22⟩ : SeriesState) =
      ⟨20093128533 / 1079034880, 558168746501 / 21812510720, 4782969 / 2790843732505, 1594323 / 431613952000, 4782969 / 109062553600, 25⟩ := by
    norm_num [step2]
  have e8 : step2 (27 : ℝ) (⟨20093128533 / 1079034880, 558168746501 / 21812510720, 4782969 / 2790843732505, 1594323 / 431613952000, 4782969 / 109062553600, 25⟩ : SeriesState) =
      ⟨29852654255703 / 1603137536000, 4983649863971 / 194754560000, 4782969 / 69771098095594, 1594323 / 11221962752000, 4782969 / 2726563840000, 28⟩ := by
    norm_num [step2]
  have e9 : step2 (27 : ℝ) (⟨29852654255703 / 1603137536000, 4983649863971 / 194754560000, 4782969 / 69771098095594, 1594323 / 11221962752000, 4782969 / 2726563840000, 28⟩ : SeriesState) =
      ⟨26348212421541 / 1414943129600, 19535907509813041 / 763437875200000, 43046721 / 19535907509813041, 14348907 / 3254369198080000, 43046721 / 763437875200000, 31⟩ := by
    norm_num [step2]
  have e10 : step2 (27 : ℝ) (⟨26348212421541 / 1414943129600, 19535907509813041 / 763437875200000, 43046721 / 19535907509813041, 14348907 / 3254369198080000, 43046721 / 763437875200000, 31⟩ : SeriesState) =
      ⟨277032633516119727 / 14877116334080000, 95167778017623821 / 3719033077760000, 387420489 / 6661744461233667470, 129140163 / 1145537957724160000, 387420489 / 260332315443200000, 34⟩ := by
    norm_num [step2]
  have e11 : step2 (27 : ℝ) (⟨277032633516119727 / 14877116334080000, 95167778017623821 / 3719033077760000, 387420489 / 6661744461233667470, 129140163 / 1145537957724160000, 387420489 / 260332315443200000, 34⟩ : SeriesState) =
      ⟨373301473664714724333 / 20046914260172800000, 905997246728941037387 / 35405194900275200000, 1162261467 / 905997246728941037387, 387420489 / 160375314081382400000, 1162261467 / 35405194900275200000, 37⟩ := by
    norm_num [step2]
  have e12 : step2 (27 : ℝ) (⟨373301473664714724333 / 20046914260172800000, 905997246728941037387 / 35405194900275200000, 1162261467 / 905997246728941037387, 387420489 / 160375314081382400000, 1162261467 / 35405194900275200000, 37⟩ : SeriesState) =
      ⟨986814330383336839569 / 52993582044282880000, 65531530176937007419 / 2560887029628928000, 10460353203 / 435784675676631099336350, 3486784401 / 79225405156202905600000, 10460353203 / 17029898747032371200000, 40⟩ := by
    norm_num [step2]
  have e13 : step2 (27 : ℝ) (⟨986814330383336839569 / 52993582044282880000, 65531530176937007419 / 2560887029628928000, 10460353203 / 435784675676631099336350, 3486784401 / 79225405156202905600000, 10460353203 / 17029898747032371200000, 40⟩ : SeriesState) =
      ⟨4320484598631908980325763 / 232017257957451366400000, 244039418378913509771534827 / 9536743298338127872000000, 94143178827 / 244039418378913509771534827, 31381059609 / 45475382559660467814400000, 94143178827 / 9536743298338127872000000, 43⟩ := by
    norm_num [step2]
  have e14 : step2 (27 : ℝ) (⟨4320484598631908980325763 / 232017257957451366400000, 244039418378913509771534827 / 9536743298338127872000000, 94143178827 / 244039418378913509771534827, 31381059609 / 45475382559660467814400000, 94143178827 / 9536743298338127872000000, 43⟩ : SeriesState) =
      ⟨7451971835720316778723597911 / 400183366525012116766720000, 26234237475733202441654762143 / 1025199904571348746240000000, 282429536481 / 52468474951466404883309524286, 94143178827 / 10004584163125302919168000000, 282429536481 / 2050399809142697492480000000, 46⟩ := by
    norm_num [step2]
  rw [loop2]
  norm_num [MACHEP]
  rw [e1]
  rw [loop2]
  norm_num [MACHEP]
  rw [e2]
  rw [loop2]
  norm_num [MACHEP]
  rw [e3]
  rw [loop2]
  norm_num [MACHEP]
  rw [e4]
  rw [loop2]
  norm_num [MACHEP]
  rw [e5]
  rw [loop2]
  norm_num [MACHEP]
  rw [e6]
  rw [loop2]
  norm_num [MACHEP]
  rw [e7]
  rw [loop2]
  norm_num [MACHEP]
  rw [e8]
  rw [loop2]
  norm_num [MACHEP]
  rw [e9]
  rw [loop2]
  norm_num [MACHEP]
  rw [e10]
  rw [loop2]
  norm_num [MACHEP]
  rw [e11]
  rw [loop2]
  norm_num [MACHEP]
  rw [e12]
  rw [loop2]
  norm_num [MACHEP]
  rw [e13]
  rw [loop2]
  norm_num [MACHEP]
  rw [e14]
  exact loop2_exit (by norm_num [MACHEP]) 6

lemma loop1_at_three :
    loop1 ((3 : ℝ) * 3 * 3) 20 (init1 3) = some s1_at_three := by
  rw [show ((3 : ℝ) * 3 * 3) = 27 by norm_num,
    show init1 (3 : ℝ) = ⟨1, 3, 1, 1, 3, 1⟩ from rfl]
  exact loop1_at_three_aux

lemma loop2_at_three :
    loop2 ((3 : ℝ) * 3 * 3) 20 (init2 3) = some s2_at_three := by
  rw [show ((3 : ℝ) * 3 * 3) = 27 by norm_num,
    show init2 (3 : ℝ) = ⟨9 / 2, 10, 1, 3 / 2, 9, 4⟩ by norm_num [init2]]
  exact loop2_at_three_aux

/-- At x = 3 (on the fall-through path) both convergence loops halt within
20 iterations and `airy` returns the concrete result `result_at_three`. -/
lemma airy_at_three (m : Mem) : airy 3 m 20 = some (result_at_three) := by
  rw [airy_pos_fall (by norm_num) (by norm_num) m 20]
  simp only [airy_series, loop1_at_three, loop2_at_three,
    if_neg (by decide : ¬ ((5 : ℕ) &&& 1 = 0)),
    if_pos (by decide : (5 : ℕ) &&& 2 = 0),
    if_neg (by decide : ¬ ((5 : ℕ) &&& 4 = 0)),
    if_pos (by decide : (5 : ℕ) &&& 8 = 0)]
  rfl

/-! The claim theorems. -/


/-- C1: for x > 25.77 (`MAXAIRY`), `airy` returns status −1 with
Ai = 0, Ai' = 0, Bi = MAXNUM, Bi' = MAXNUM; this overflow case is the only
path that returns status −1; and at x = 25.77 exactly the routine returns
status 0, the positive asymptotic branch executing (with ζ > 16, so the
branch's direct values are returned). -/
theorem overflow_only_error (x : ℝ) (m : Mem) (fuel : ℕ) :
    (MAXAIRY < x → airy x m fuel = some (⟨0, 0, MAXNUM, MAXNUM⟩, -1)) ∧
    (∀ r : Mem × ℤ, airy x m fuel = some r → r.2 = -1 → MAXAIRY < x) ∧
    airy 25.77 m fuel =
      some (⟨asymAi 25.77, asymAip 25.77, asymBi 25.77, asymBip 25.77⟩, 0) := by
  refine ⟨fun h => airy_overflow h m fuel, ?_, ?_⟩
  · intro r hr hstat
    by_contra hov
    by_cases hneg : x < -2.09
    · rw [airy_neg hneg m fuel] at hr
      simp only [Option.some.injEq] at hr
      rw [← hr] at hstat
      exact absurd hstat (by norm_num [negBranch])
    · by_cases hpos : 2.09 ≤ x
      · by_cases hbig : 8.3203353 < x
        · rw [airy_pos_direct hpos (not_lt.mp hov) hbig m fuel] at hr
          simp only [Option.some.injEq] at hr
          rw [← hr] at hstat
          exact absurd hstat (by norm_num [posBig])
        · rw [airy_pos_fall hpos (not_lt.mp hbig) m fuel] at hr
          have := airy_series_status hr
          rw [this] at hstat
          exact absurd hstat (by norm_num)
      · rw [airy_small hneg hpos m fuel] at hr
        have := airy_series_status hr
        rw [this] at hstat
        exact absurd hstat (by norm_num)
  · rw [airy_pos_direct (by norm_num) (by norm_num [MAXAIRY]) (by norm_num) m fuel,
      posBig_eq]

/-- Witness for C1 at the concrete inputs x = 26 (overflow) and
x = 25.77 (boundary): instantiates both implications of the theorem. -/
theorem overflow_only_error_witness :
    airy 26 ⟨0, 0, 0, 0⟩ 0 = some (⟨0, 0, MAXNUM, MAXNUM⟩, -1) ∧ MAXAIRY < 26 := by
  refine ⟨(overflow_only_error 26 ⟨0, 0, 0, 0⟩ 0).1 (by norm_num [MAXAIRY]), ?_⟩
  exact (overflow_only_error 26 ⟨0, 0, 0, 0⟩ 0).2.1 (⟨0, 0, MAXNUM, MAXNUM⟩, -1)
    ((overflow_only_error 26 ⟨0, 0, 0, 0⟩ 0).1 (by norm_num [MAXAIRY])) rfl

/-- C6: `airy` writes all four outputs before every return — the result
never depends on the initial contents of the output locations — and the
status dichotomy holds: status −1 exactly when x > MAXAIRY, in which case
the outputs are the fixed saturation values (0, 0, MAXNUM, MAXNUM);
otherwise status 0. -/
theorem all_outputs_written (x : ℝ) (m m2 : Mem) (fuel : ℕ) :
    airy x m fuel = airy x m2 fuel ∧
    ∀ r : Mem × ℤ, airy x m fuel = some r →
      (MAXAIRY < x ∧ r = (⟨0, 0, MAXNUM, MAXNUM⟩, -1)) ∨
      (x ≤ MAXAIRY ∧ r.2 = 0) := by
  refine ⟨airy_mem_indep x m m2 fuel, ?_⟩
  intro r hr
  by_cases hov : MAXAIRY < x
  · left
    refine ⟨hov, ?_⟩
    rw [airy_overflow hov m fuel] at hr
    simp only [Option.some.injEq] at hr
    exact hr.symm
  · right
    refine ⟨not_lt.mp hov, ?_⟩
    by_cases hneg : x < -2.09
    · rw [airy_neg hneg m fuel] at hr
      simp only [Option.some.injEq] at hr
      rw [← hr]
      norm_num [negBranch]
    · by_cases hpos : 2.09 ≤ x
      · by_cases hbig : 8.3203353 < x
        · rw [airy_pos_direct hpos (not_lt.mp hov) hbig m fuel] at hr
          simp only [Option.some.injEq] at hr
          rw [← hr]
          norm_num [posBig]
        · rw [airy_pos_fall hpos (not_lt.mp hbig) m fuel] at hr
          exact airy_series_status hr
      · rw [airy_small hneg hpos m fuel] at hr
        exact airy_series_status hr

/-- Witness for C6 at x = 26 with two different initial memories. -/
theorem all_outputs_written_witness :
    airy 26 ⟨1, 2, 3, 4⟩ 0 = airy 26 ⟨5, 6, 7, 8⟩ 0 ∧
    ((MAXAIRY < 26 ∧
        ((⟨0, 0, MAXNUM, MAXNUM⟩, -1) : Mem × ℤ) = (⟨0, 0, MAXNUM, MAXNUM⟩, -1)) ∨
      ((26 : ℝ) ≤ MAXAIRY ∧ ((⟨0, 0, MAXNUM, MAXNUM⟩, -1) : Mem × ℤ).2 = 0)) := by
  refine ⟨(all_outputs_written 26 ⟨1, 2, 3, 4⟩ ⟨5, 6, 7, 8⟩ 0).1, ?_⟩
  exact (all_outputs_written 26 ⟨1, 2, 3, 4⟩ ⟨5, 6, 7, 8⟩ 0).2
    (⟨0, 0, MAXNUM, MAXNUM⟩, -1) (airy_overflow (by norm_num [MAXAIRY]) _ 0)

/-- C7: at x = 0 the power-series accumulators reduce to f = 1, g = 0
(value series) and f = 0, g = 1 (derivative series), so `airy 0` returns
status 0 with Ai = c1, Ai' = −c2, Bi = sqrt3·c1, Bi' = sqrt3·c2 (one loop
iteration is taken, hence any positive fuel suffices). -/
theorem airy_at_zero (m : Mem) (fuel : ℕ) :
    airy 0 m (fuel + 1) = some (⟨c1, -c2, sqrt3 * c1, sqrt3 * c2⟩, 0) := by
  rw [airy_small (by norm_num) (by norm_num) m (fuel + 1)]
  simp only [airy_series, loop1_at_zero, loop2_at_zero,
    if_pos (by decide : (0 : ℕ) &&& 1 = 0),
    if_pos (by decide : (0 : ℕ) &&& 2 = 0),
    if_pos (by decide : (0 : ℕ) &&& 4 = 0),
    if_pos (by decide : (0 : ℕ) &&& 8 = 0),
    Option.some.injEq]
  refine Prod.ext ?_ rfl
  show Mem.mk _ _ _ _ = _
  simp only [Mem.mk.injEq]
  refine ⟨by ring, by ring, by ring, by ring⟩

/-- C9: `airy` is a pure function of its scalar argument: a second call with
the same x (starting from the memory the first call produced) returns the
identical result, since every intermediate is local and only the immutable
coefficient tables are read. -/
theorem airy_idempotent (x : ℝ) (m : Mem) (fuel : ℕ) (r : Mem × ℤ)
    (h : airy x m fuel = some r) : airy x r.1 fuel = some r := by
  rw [airy_mem_indep x r.1 m fuel]
  exact h

/-- Witness for C9 at x = 26. -/
theorem airy_idempotent_witness :
    airy 26 (⟨0, 0, MAXNUM, MAXNUM⟩ : Mem) 0 =
      some (⟨0, 0, MAXNUM, MAXNUM⟩, -1) := by
  exact airy_idempotent 26 ⟨1, 2, 3, 4⟩ 0 (⟨0, 0, MAXNUM, MAXNUM⟩, -1)
    (airy_overflow (by norm_num [MAXAIRY]) _ 0)

/-- C3 counterexample: at x = 16 the positive asymptotic branch executes
directly and its `Ai` output differs from the claim's formula
`√(1/π)·evalPoly(z,AN)/evalPoly(z,AD)/(2·t·g)` taken at t = √x: the code
reassigns `t = sqrt(t)` first, so its scale is `2·x^(1/4)·g`, and at x = 16
the two scales are 4·g versus 8·g. -/
theorem pos_branch_kprime_counterexample :
    airy 16 ⟨0, 0, 0, 0⟩ 0 = some (posBig 16) ∧
    (posBig 16).1.ai ≠ claimPosAi 16 := by
  have h16 : Real.sqrt (16 : ℝ) = 4 := by
    rw [show (16 : ℝ) = 4 ^ 2 by norm_num]
    exact Real.sqrt_sq (by norm_num)
  have h4 : Real.sqrt (4 : ℝ) = 2 := by
    rw [show (4 : ℝ) = 2 ^ 2 by norm_num]
    exact Real.sqrt_sq (by norm_num)
  refine ⟨airy_pos_direct (by norm_num) (by norm_num [MAXAIRY]) (by norm_num) _ 0, ?_⟩
  have hFN : 0 < polevl ((3 : ℝ) / 128) AN := by norm_num [polevl, AN]
  have hFD : 0 < polevl ((3 : ℝ) / 128) AD := by norm_num [polevl, AD]
  have hs : (0 : ℝ) < sqpii := by norm_num [sqpii]
  have hE : (0 : ℝ) < Real.exp (128 / 3) := Real.exp_pos _
  simp only [posBig, posAiAip, claimPosAi, asymZeta, h16, h4]
  norm_num
  intro h
  rw [div_eq_div_iff (by positivity) (by positivity)] at h
  nlinarith [mul_pos (mul_pos hs (div_pos hFN hFD)) hE]

/-- C3 (amended): for 2.09 ≤ x ≤ 25.77, the positive asymptotic branch sets
Ai = √(1/π)·evalPoly(z,AN)/evalPoly(z,AD)/k and
Ai' = k″·evalPoly(z,APN)/evalPoly(z,APD) with z = 1/ζ, ζ = (2/3)·x·√x,
g = exp ζ — but with the scales formed from the reassigned t:
k = 2·x^(1/4)·g and k″ = −0.5·√(1/π)·x^(1/4)/g. -/
theorem pos_branch_ai_aip_amended (x : ℝ) (m : Mem) (fuel : ℕ) (r : Mem × ℤ)
    (h1 : 2.09 ≤ x) (h2 : x ≤ MAXAIRY) (hr : airy x m fuel = some r) :
    r.1.ai = asymAi x ∧ r.1.aip = asymAip x := by
  by_cases hbig : 8.3203353 < x
  · rw [airy_pos_direct h1 h2 hbig m fuel, posBig_eq] at hr
    simp only [Option.some.injEq] at hr
    rw [← hr]
    exact ⟨rfl, rfl⟩
  · rw [airy_pos_fall h1 (not_lt.mp hbig) m fuel] at hr
    have h5 := airy_series_five_frame hr
    simp only [posAiAip_eq] at h5
    exact h5

/-- Witness for the amended C3 at x = 16. -/
theorem pos_branch_ai_aip_amended_witness :
    (posBig 16).1.ai = asymAi 16 ∧ (posBig 16).1.aip = asymAip 16 := by
  exact pos_branch_ai_aip_amended 16 ⟨0, 0, 0, 0⟩ 0 (posBig 16) (by norm_num)
    (by norm_num [MAXAIRY])
    (airy_pos_direct (by norm_num) (by norm_num [MAXAIRY]) (by norm_num) _ 0)

/-- C4: for 2.09 ≤ x ≤ 25.77, the routine produces Bi and Bi' directly from
the BN16/BD16 and BPPN/BPPD rational approximations scaled by
k = √(1/π)·exp ζ and returns status 0 immediately (skipping the fallback
series) exactly when x > 8.3203353; for x ≤ 8.3203353 it falls through and
Bi, Bi' are produced by the near-zero series combination. -/
theorem pos_branch_bi_threshold (x : ℝ) (m : Mem) (fuel : ℕ)
    (h1 : 2.09 ≤ x) (h2 : x ≤ MAXAIRY) :
    (8.3203353 < x →
      airy x m fuel = some (⟨asymAi x, asymAip x, asymBi x, asymBip x⟩, 0)) ∧
    (x ≤ 8.3203353 → ∀ (r : Mem × ℤ) (s1 s2 : SeriesState),
      airy x m fuel = some r →
      loop1 (x * x * x) fuel (init1 x) = some s1 →
      loop2 (x * x * x) fuel (init2 x) = some s2 →
      r.1.bi = sqrt3 * (c1 * s1.f + c2 * s1.g) ∧
      r.1.bip = sqrt3 * (c1 * s2.f + c2 * s2.g) ∧ r.2 = 0) := by
  constructor
  · intro hbig
    rw [airy_pos_direct h1 h2 hbig m fuel, posBig_eq]
  · intro hsmall r s1 s2 hr hl1 hl2
    rw [airy_pos_fall h1 hsmall m fuel] at hr
    have hb := airy_series_five_bi hr hl1 hl2
    exact ⟨hb.1, hb.2, airy_series_status hr⟩

/-- Witness for C4 at x = 16 (the direct, ζ > 16 side of the threshold) and
at x = 3 (the fall-through side, with both convergence loops evaluated). -/
theorem pos_branch_bi_threshold_witness :
    (airy 16 ⟨0, 0, 0, 0⟩ 0 =
      some (⟨asymAi 16, asymAip 16, asymBi 16, asymBip 16⟩, 0)) ∧
    (result_at_three.1.bi =
        sqrt3 * (c1 * s1_at_three.f + c2 * s1_at_three.g) ∧
      result_at_three.1.bip =
        sqrt3 * (c1 * s2_at_three.f + c2 * s2_at_three.g) ∧
      result_at_three.2 = 0) := by
  refine ⟨(pos_branch_bi_threshold 16 ⟨0, 0, 0, 0⟩ 0 (by norm_num)
    (by norm_num [MAXAIRY])).1 (by norm_num), ?_⟩
  exact (pos_branch_bi_threshold 3 ⟨0, 0, 0, 0⟩ 20 (by norm_num)
    (by norm_num [MAXAIRY])).2 (by norm_num) result_at_three s1_at_three
    s2_at_three (airy_at_three ⟨0, 0, 0, 0⟩) loop1_at_three loop2_at_three

/-- C5: on the fall-through path (2.09 ≤ x ≤ 8.3203353) the near-zero
series writes only Bi and Bi': the Ai and Ai' values computed by the
positive asymptotic branch (domain flag 5, bits 0 and 2 set) survive in the
final result unchanged. -/
theorem fallthrough_preserves_ai_aip (x : ℝ) (m : Mem) (fuel : ℕ)
    (h1 : 2.09 ≤ x) (h2 : x ≤ 8.3203353) :
    (airy x m fuel).map (fun p => (p.1.ai, p.1.aip)) =
      (airy x m fuel).map (fun _ => (asymAi x, asymAip x)) := by
  rw [airy_pos_fall h1 h2 m fuel]
  cases hs : airy_series x 5
      { m with ai := (posAiAip x).1, aip := (posAiAip x).2 } fuel with
  | none => rfl
  | some r =>
      have h5 := airy_series_five_frame hs
      simp only [posAiAip_eq] at h5
      simp only [Option.map_some', h5.1, h5.2]

/-- Witness for C5 at x = 3 with fuel 20, where `airy` is known to converge
to a concrete `some` result, so the mapped equality is not vacuous. -/
theorem fallthrough_preserves_ai_aip_witness :
    airy 3 ⟨0, 0, 0, 0⟩ 20 = some result_at_three ∧
    (airy 3 ⟨0, 0, 0, 0⟩ 20).map (fun p => (p.1.ai, p.1.aip)) =
      (airy 3 ⟨0, 0, 0, 0⟩ 20).map (fun _ => (asymAi 3, asymAip 3)) := by
  exact ⟨airy_at_three ⟨0, 0, 0, 0⟩,
    fallthrough_preserves_ai_aip 3 ⟨0, 0, 0, 0⟩ 20 (by norm_num) (by norm_num)⟩

/-! Helper lemmas for the negative asymptotic branch. -/

lemma negBranch_aip_eq (x : ℝ) : (negBranch x).1.aip = negAipAmended x := by
  have hz : -2 * x * Real.sqrt (-x) / 3 = negZeta x := by rw [negZeta]; ring
  have hpi : PI / 4 = 0.25 * PI := by ring
  simp only [negBranch, negAipAmended, negKp, negTheta, negUf, negUg, hz, hpi,
    pow_two]

lemma negBranch_bip_eq (x : ℝ) : (negBranch x).1.bip = negBipAmended x := by
  have hz : -2 * x * Real.sqrt (-x) / 3 = negZeta x := by rw [negZeta]; ring
  have hpi : PI / 4 = 0.25 * PI := by ring
  simp only [negBranch, negBipAmended, negKp, negTheta, negUf, negUg, hz, hpi,
    pow_two]

/-- Numeric lower bound on the cosine of the phase θ = 16/3 + PI/4 occurring
at x = −4 (θ is slightly below 2π, so the cosine is close to 1). -/
lemma cos_theta_neg4 : (24 : ℝ) / 25 ≤ Real.cos (16 / 3 + PI / 4) := by
  have hPI : PI = 3.14159265358979323846 := rfl
  have hpil := Real.pi_gt_d6
  have hpiu := Real.pi_lt_d6
  rw [show (16 : ℝ) / 3 + PI / 4 =
      2 * Real.pi - (2 * Real.pi - (16 / 3 + PI / 4)) by ring,
    Real.cos_two_pi_sub]
  have hy0 : 0 ≤ 2 * Real.pi - (16 / 3 + PI / 4) := by rw [hPI]; linarith
  have hy1 : 2 * Real.pi - (16 / 3 + PI / 4) ≤ 1 / 6 := by rw [hPI]; linarith
  have hcos := Real.one_sub_sq_div_two_le_cos
    (x := 2 * Real.pi - (16 / 3 + PI / 4))
  nlinarith [hcos, hy0, hy1]

/-- C2 counterexample: at x = −4 the negative asymptotic branch executes and
its `Ai'` output differs from the claim's formula, which takes
k′ = √(1/π)·t with t = √(−x) = 2; the code reassigns `t = sqrt(t)` first,
so its actual scale is k′ = √(1/π)·(−x)^(1/4) = √(1/π)·√2. -/
theorem neg_branch_kprime_counterexample :
    airy (-4) ⟨0, 0, 0, 0⟩ 0 = some (negBranch (-4)) ∧
    (negBranch (-4)).1.aip ≠ negAipClaim (-4) := by
  refine ⟨airy_neg (by norm_num) _ 0, ?_⟩
  rw [negBranch_aip_eq]
  have h4 : Real.sqrt (4 : ℝ) = 2 := by
    rw [show (4 : ℝ) = 2 ^ 2 by norm_num]
    exact Real.sqrt_sq (by norm_num)
  have hzeta : negZeta (-4) = 16 / 3 := by rw [negZeta]; norm_num [h4]
  have htheta : negTheta (-4) = 16 / 3 + PI / 4 := by rw [negTheta, hzeta]
  have hUf : negUf (-4) =
      1 + 9 / 256 * polevl ((9 : ℝ) / 256) APFN / p1evl ((9 : ℝ) / 256) APFD := by
    rw [negUf, hzeta]; norm_num
  have hUg : negUg (-4) =
      3 / 16 * polevl ((9 : ℝ) / 256) APGN / p1evl ((9 : ℝ) / 256) APGD := by
    rw [negUg, hzeta]; norm_num
  have hPfn : (0 : ℝ) < polevl ((9 : ℝ) / 256) APFN := by
    norm_num [polevl, APFN, List.foldl_cons, List.foldl_nil]
  have hQfd : (0 : ℝ) < p1evl ((9 : ℝ) / 256) APFD := by
    norm_num [p1evl, APFD, List.foldl_cons, List.foldl_nil]
  have hPgn1 : -(1 : ℝ) / 1000000 ≤ polevl ((9 : ℝ) / 256) APGN := by
    norm_num [polevl, APGN, List.foldl_cons, List.foldl_nil]
  have hPgn2 : polevl ((9 : ℝ) / 256) APGN ≤ 0 := by
    norm_num [polevl, APGN, List.foldl_cons, List.foldl_nil]
  have hQgd : (1 : ℝ) / 2000000 ≤ p1evl ((9 : ℝ) / 256) APGD := by
    norm_num [p1evl, APGD, List.foldl_cons, List.foldl_nil]
  have hU : 1 ≤ negUf (-4) := by
    rw [hUf]
    have key := div_pos (mul_pos (by norm_num : (0 : ℝ) < 9 / 256) hPfn) hQfd
    linarith [key]
  have hQgd0 : (0 : ℝ) < p1evl ((9 : ℝ) / 256) APGD := by linarith
  have hV1 : -(1 : ℝ) / 2 ≤ negUg (-4) := by
    rw [hUg, le_div_iff₀ hQgd0]
    nlinarith
  have hV2 : negUg (-4) ≤ 0 := by
    rw [hUg, div_le_iff₀ hQgd0]
    nlinarith
  have hc := cos_theta_neg4
  have hs1 := Real.neg_one_le_sin (16 / 3 + PI / 4)
  have hs2 := Real.sin_le_one (16 / 3 + PI / 4)
  have hW : 0 < Real.cos (16 / 3 + PI / 4) * negUf (-4) +
      Real.sin (16 / 3 + PI / 4) * negUg (-4) := by
    nlinarith [hc, hU, hV1, hV2, hs1, hs2]
  have hsq2 : Real.sqrt 2 < 2 := by
    have h24 := Real.sqrt_lt_sqrt (by norm_num : (0 : ℝ) ≤ 2)
      (by norm_num : (2 : ℝ) < 4)
    rwa [h4] at h24
  have hsp : (0 : ℝ) < sqpii := by norm_num [sqpii]
  simp only [negAipAmended, negAipClaim, negKp, negKpClaim, htheta,
    show (-(-4) : ℝ) = 4 by norm_num, h4]
  intro heq
  nlinarith [heq, mul_pos (mul_pos hsp hW) (sub_pos.2 hsq2)]

/-- C2 (amended): for x < −2.09 the negative asymptotic branch executes and
the derivative outputs are Ai' = −k′·(g·uf + f·ug) and
Bi' = k′·(f·uf − g·ug), with uf, ug built from the APFN/APFD and APGN/APGD
tables at zz = (1/ζ)², f = sin θ, g = cos θ, θ = ζ + π/4,
ζ = −(2/3)·x·√(−x) — and with the scale k′ = √(1/π)·√t = √(1/π)·(−x)^(1/4)
(the code reassigns t = sqrt(t) before forming k′). -/
theorem neg_branch_derivatives_amended (x : ℝ) (m : Mem) (fuel : ℕ)
    (h : x < -2.09) :
    airy x m fuel = some (negBranch x) ∧
    (negBranch x).1.aip = negAipAmended x ∧
    (negBranch x).1.bip = negBipAmended x :=
  ⟨airy_neg h m fuel, negBranch_aip_eq x, negBranch_bip_eq x⟩

/-- Witness for the amended C2 at x = −4. -/
theorem neg_branch_derivatives_amended_witness :
    airy (-4) ⟨0, 0, 0, 0⟩ 0 = some (negBranch (-4)) ∧
    (negBranch (-4)).1.aip = negAipAmended (-4) ∧
    (negBranch (-4)).1.bip = negBipAmended (-4) :=
  neg_branch_derivatives_amended (-4) ⟨0, 0, 0, 0⟩ 0 (by norm_num)

end

end Airy
